import Mathlib

/-
Shallow embedding of the credit-gated message-dispatch workflow of the
bomber server (src/dist/index.js).  Pure data is modelled by structures,
the database tables by lists, and each HTTP handler by a function from
its inputs (current rows, request body, gateway outcome) to an outcome
record carrying the HTTP status, the response payload fields the claims
mention, the updated rows, and the number of outbound gateway calls.
-/

namespace Bomber

/-- A row of the `users` table (the fields the workflow reads/writes). -/
structure User where
  id : Nat
  username : String
  phone : String
  messagesRemaining : Int
  messagesSent : Int
  isAdmin : Bool
  isActive : Bool
  deriving Repr, DecidableEq

/-- A row of the `messages` table. -/
structure Message where
  userId : Nat
  phone : String
  message : String
  status : String
  msgType : String
  deriving Repr, DecidableEq

/-- The argument of `DatabaseStorage.createMessage`: callers may pass a
status and a type; absent fields fall back to the column defaults. -/
structure InsertMessage where
  userId : Nat
  phone : String
  message : String
  status : Option String
  msgType : Option String
  deriving Repr, DecidableEq

/-- `DatabaseStorage.createMessage`: inserts `\x7b...insertMessage, status: "sent"\x7d`,
so the explicit `status: "sent"` written after the spread always overwrites
whatever status the caller supplied; the type falls back to the column
default `"custom"` when the caller omitted it. -/
def createMessage (msgs : List Message) (m : InsertMessage) : List Message :=
  msgs ++ [{ userId := m.userId, phone := m.phone, message := m.message,
             status := "sent", msgType := m.msgType.getD "custom" }]

/-- `DatabaseStorage.updateUserMessageCount`: remaining := max 0 (remaining − 1),
sent := sent + 1. -/
def updateUserMessageCount (u : User) : User :=
  { u with messagesRemaining := max 0 (u.messagesRemaining - 1),
           messagesSent := u.messagesSent + 1 }

/-- `DatabaseStorage.addUserCredits`: remaining := remaining + credits. -/
def addUserCredits (u : User) (credits : Int) : User :=
  { u with messagesRemaining := u.messagesRemaining + credits }

/-- `DatabaseStorage.removeUserCredits`: remaining := GREATEST(0, remaining − credits). -/
def removeUserCredits (u : User) (credits : Int) : User :=
  { u with messagesRemaining := max 0 (u.messagesRemaining - credits) }

/-- A row of the `otps` table; times are integer epoch instants. -/
structure Otp where
  id : Nat
  phone : String
  code : String
  expiresAt : Int
  verified : Bool
  createdAt : Int
  deriving Repr, DecidableEq

/-- `DatabaseStorage.getLatestOtp`: the row for `phone` with the greatest
`createdAt` (ORDER BY created_at DESC LIMIT 1). -/
def getLatestOtp (otps : List Otp) (phone : String) : Option Otp :=
  (otps.filter (fun o => o.phone = phone)).foldl
    (fun acc o =>
      match acc with
      | none => some o
      | some b => if b.createdAt < o.createdAt then some o else some b)
    none

/-- `DatabaseStorage.verifyOtp`: set verified := true on the row with this id. -/
def verifyOtpById (otps : List Otp) (id : Nat) : List Otp :=
  otps.map (fun o => if o.id = id then { o with verified := true } else o)

/-- Outcome of `POST /api/verify-otp`: status, response message, updated otps. -/
structure VerifyOutcome where
  status : Nat
  respMessage : String
  otps : List Otp
  deriving Repr, DecidableEq

/-- The `POST /api/verify-otp` handler: fetches the latest OTP row for the
phone, rejects (400) when there is none, when it is already verified, when
`now > expiresAt`, or when the code differs; otherwise marks it verified. -/
def apiVerifyOtp (otps : List Otp) (now : Int) (phone code : String) : VerifyOutcome :=
  match getLatestOtp otps phone with
  | none => ⟨400, "No verification code found", otps⟩
  | some o =>
    if o.verified then ⟨400, "Code already verified", otps⟩
    else if o.expiresAt < now then ⟨400, "Verification code expired", otps⟩
    else if o.code ≠ code then ⟨400, "Invalid verification code", otps⟩
    else ⟨200, "Verification successful", verifyOtpById otps o.id⟩

/-- `DatabaseStorage.createUser`: new users start with 5 credits, 0 sent,
active. -/
def createUser (us : List User) (newId : Nat) (username phone : String)
    (isAdminFlag : Bool) : List User :=
  us ++ [{ id := newId, username := username, phone := phone,
           messagesRemaining := 5, messagesSent := 0,
           isAdmin := isAdminFlag, isActive := true }]

/-- Outcome of `POST /api/complete-registration`. -/
structure RegOutcome where
  status : Nat
  respMessage : String
  users : List User
  deriving Repr, DecidableEq

/-- The `POST /api/complete-registration` handler: re-fetches the latest OTP
row for the phone and requires `verified = true` (the expiry time is not
consulted here, so `now` is unused); otherwise 400 "Phone not verified". -/
def completeRegistration (otps : List Otp) (us : List User) (_now : Int)
    (newId : Nat) (username phone : String) (isAdminFlag : Bool) : RegOutcome :=
  match getLatestOtp otps phone with
  | none => ⟨400, "Phone not verified", us⟩
  | some o =>
    if o.verified then ⟨201, "", createUser us newId username phone isAdminFlag⟩
    else ⟨400, "Phone not verified", us⟩

/-- Outcome of `POST /api/send-message`. -/
structure SendOutcome where
  status : Nat
  respMessage : String
  user : User
  messages : List Message
  gatewayCalls : Nat
  deriving Repr, DecidableEq

/-- The `POST /api/send-message` handler: rejects an inactive account (403)
or an empty balance (403); otherwise calls the gateway once; on gateway
failure returns 500 with no mutation; on success debits via
`updateUserMessageCount` and stores an audit row. -/
def apiSendMessage (u : User) (msgs : List Message) (phone msg : String)
    (gatewayOk : Bool) : SendOutcome :=
  if u.isActive = false then ⟨403, "Your account is disabled", u, msgs, 0⟩
  else if u.messagesRemaining ≤ 0 then ⟨403, "You have no messages remaining", u, msgs, 0⟩
  else if gatewayOk = false then ⟨500, "Failed to send message", u, msgs, 1⟩
  else ⟨200, "Message sent successfully", updateUserMessageCount u,
        createMessage msgs ⟨u.id, phone, msg, none, none⟩, 1⟩

/-- Outcome of `POST /api/bomber`; `respRemaining` is the `messagesRemaining`
field echoed in the 200 response body (absent on error responses). -/
structure BomberOutcome where
  status : Nat
  respMessage : String
  respRemaining : Option Int
  user : User
  messages : List Message
  gatewayCalls : Nat
  deriving Repr, DecidableEq

/-- The `POST /api/bomber` handler: checks `messagesRemaining < repeat` (400),
then `isActive` (403), then the protected-number registry (403), then makes
one gateway call; on success it runs `removeUserCredits(repeat)` followed by
`updateUserMessageCount` and stores an audit row, and the response body
reports `messagesRemaining − repeat`. -/
def apiBomber (u : User) (msgs : List Message) (prot : List String)
    (phone : String) (rpt : Int) (gatewayOk : Bool) : BomberOutcome :=
  if u.messagesRemaining < rpt then
    ⟨400, "You don't have enough credits", none, u, msgs, 0⟩
  else if u.isActive = false then
    ⟨403, "Your account is suspended", none, u, msgs, 0⟩
  else if prot.contains phone then
    ⟨403, "This number is protected from bomber messages", none, u, msgs, 0⟩
  else if gatewayOk = false then
    ⟨500, "Failed to send bomber messages", none, u, msgs, 1⟩
  else
    ⟨200, "Successfully sent " ++ toString rpt ++ " messages",
     some (u.messagesRemaining - rpt),
     updateUserMessageCount (removeUserCredits u rpt),
     createMessage msgs ⟨u.id, phone, "BOMBER: Sent " ++ toString rpt ++ " messages",
       some "sent", some "bomber"⟩, 1⟩

/-- JavaScript truthiness of the optional `message` field of the bomber body:
`if (message)` is taken exactly when the field is present and non-empty. -/
def messageTruthy : Option String → Bool
  | none => false
  | some s => if s = "" then false else true

/-- The loop body of `POST /api/admin/bomber` with an explicit message:
iteration `i` makes one `sendCustomMessage` call whose reported success is
`g i`; the results array and the running success counter are accumulated
exactly as in the source loop. -/
def adminBomberLoop (g : Nat → Bool) : Nat → List Bool × Nat
  | 0 => ([], 0)
  | n + 1 =>
    let p := adminBomberLoop g n
    (p.1 ++ [g n], if g n then p.2 + 1 else p.2)

/-- Outcome of `POST /api/admin/bomber`. -/
structure AdminBomberOutcome where
  status : Nat
  respMessage : String
  gatewayCalls : Nat
  deriving Repr, DecidableEq

/-- The `POST /api/admin/bomber` handler: rejects a protected number (403)
before any gateway call; with a truthy explicit message it loops
`sendCustomMessage` `rpt` times counting successes; otherwise it makes a
single `sendBomberMessage` call. -/
def adminBomber (prot : List String) (phone : String) (rpt : Nat)
    (msg : Option String) (gCustom : Nat → Bool) (gBomberOk : Bool) : AdminBomberOutcome :=
  if prot.contains phone then
    ⟨403, "This number is protected from bomber messages", 0⟩
  else if messageTruthy msg then
    let p := adminBomberLoop gCustom rpt
    ⟨200, "Sent " ++ toString p.2 ++ " of " ++ toString rpt ++ " messages successfully",
     p.1.length⟩
  else if gBomberOk then ⟨200, "Requested " ++ toString rpt ++ " messages to be sent", 1⟩
  else ⟨500, "Failed to send bomber messages", 1⟩

/-- Outcome of `POST /api/admin/custom-message`. -/
structure CustomMsgOutcome where
  status : Nat
  gatewayCalls : Nat
  deriving Repr, DecidableEq

/-- The `POST /api/admin/custom-message` handler: no protected-number lookup
occurs; the gateway is called once and the status follows its result. -/
def adminCustomMessage (_phone _msg : String) (gatewayOk : Bool) : CustomMsgOutcome :=
  if gatewayOk then ⟨200, 1⟩ else ⟨500, 1⟩

/-- The `POST /api/request-credits` handler: stores a credit-request audit
row through `createMessage` (passing status "pending" and type
"credit_request") and answers 200. -/
def apiRequestCredits (u : User) (msgs : List Message) (reason : String)
    (credits : Int) : Nat × List Message :=
  (200,
   createMessage msgs
     ⟨u.id, "SYSTEM",
      "CREDIT REQUEST - User: " ++ u.username ++ ", Credits: " ++ toString credits ++
        ", Reason: " ++ reason,
      some "pending", some "credit_request"⟩)

/-- A ledger operation on the balance of one user: `debit` is
`updateUserMessageCount`; `add`/`remove` carry the positive integer amount
the admin validation layer (`updateUserCreditsSchema`, credits ≥ 1) allows. -/
inductive LedgerOp where
  | debit : LedgerOp
  | add : Nat → LedgerOp
  | remove : Nat → LedgerOp
  deriving Repr, DecidableEq

/-- Apply one ledger operation. -/
def applyLedgerOp (u : User) : LedgerOp → User
  | .debit => updateUserMessageCount u
  | .add c => addUserCredits u (c : Int)
  | .remove c => removeUserCredits u (c : Int)

/-- Apply a sequence of ledger operations left to right. -/
def applyLedgerOps (u : User) (ops : List LedgerOp) : User :=
  ops.foldl applyLedgerOp u

/-- Sample user: 5 credits, none sent, active, not admin. -/
def uAlice : User := ⟨1, "alice", "9990001111", 5, 0, false, true⟩

/-- Sample user with an empty balance. -/
def uBroke : User := ⟨2, "bob", "9990002222", 0, 0, false, true⟩

/-- C1: the claim says a successful self-service bomber send with
`repeat = 2` from balance 5 leaves `messagesRemaining = 3`; the code stores
`max 0 (5 − 2 − 1) = 2` (the `removeUserCredits(repeat)` step is followed by
`updateUserMessageCount`, which removes one more credit) even though the 200
response body itself reports 3 remaining; `messagesSent` does rise by 1. -/
theorem c1_double_debit :
    (apiBomber uAlice [] [] "9998887777" 2 true).status = 200 ∧
    (apiBomber uAlice [] [] "9998887777" 2 true).respRemaining = some 3 ∧
    (apiBomber uAlice [] [] "9998887777" 2 true).user.messagesRemaining = 2 ∧
    (apiBomber uAlice [] [] "9998887777" 2 true).user.messagesSent = 1 := by
  decide

/-- C2: the claim says a credit request stores a Message row with status
"pending"; `createMessage` overwrites every caller-supplied status with
"sent", so the stored row has type "credit_request" but status "sent". -/
theorem c2_status_clobbered :
    (apiRequestCredits uAlice [] "Need credits for testing" 10).1 = 200 ∧
    (apiRequestCredits uAlice [] "Need credits for testing" 10).2 =
      [{ userId := 1, phone := "SYSTEM",
         message := "CREDIT REQUEST - User: alice, Credits: 10, Reason: Need credits for testing",
         status := "sent", msgType := "credit_request" }] := by
  decide

/-- Remaining balance stays non-negative across one ledger operation. -/
theorem applyLedgerOp_nonneg (u : User) (op : LedgerOp)
    (h : 0 ≤ u.messagesRemaining) : 0 ≤ (applyLedgerOp u op).messagesRemaining := by
  cases op with
  | debit => exact le_max_left 0 _
  | add c =>
    simpa [applyLedgerOp, addUserCredits] using
      add_nonneg h (Int.natCast_nonneg c)
  | remove c => exact le_max_left 0 _

/-- C6: starting from a non-negative balance, any sequence of
`updateUserMessageCount`, `addUserCredits` and `removeUserCredits`
operations leaves `messagesRemaining` non-negative. -/
theorem c6_ledger_nonneg (u : User) (ops : List LedgerOp)
    (h : 0 ≤ u.messagesRemaining) :
    0 ≤ (applyLedgerOps u ops).messagesRemaining := by
  induction ops generalizing u with
  | nil => exact h
  | cons op rest ih => exact ih (applyLedgerOp u op) (applyLedgerOp_nonneg u op h)

/-- C6 witness: a concrete operation sequence from balance 5. -/
theorem c6_ledger_nonneg_witness :
    0 ≤ (applyLedgerOps uAlice
      [LedgerOp.debit, LedgerOp.remove 7, LedgerOp.add 3, LedgerOp.debit]).messagesRemaining :=
  c6_ledger_nonneg uAlice
    [LedgerOp.debit, LedgerOp.remove 7, LedgerOp.add 3, LedgerOp.debit] (by decide)

/-- C8: a self-service bomber request whose repeat count exceeds the balance
of the caller answers 400 "You don't have enough credits", makes no gateway call,
and leaves the user row and the message table unchanged. -/
theorem c8_insufficient_credits (u : User) (msgs : List Message)
    (prot : List String) (phone : String) (rpt : Int) (g : Bool)
    (h : u.messagesRemaining < rpt) :
    (apiBomber u msgs prot phone rpt g).status = 400 ∧
    (apiBomber u msgs prot phone rpt g).respMessage = "You don't have enough credits" ∧
    (apiBomber u msgs prot phone rpt g).gatewayCalls = 0 ∧
    (apiBomber u msgs prot phone rpt g).user = u ∧
    (apiBomber u msgs prot phone rpt g).messages = msgs := by
  simp [apiBomber, h]

/-- C8 witness: balance 0, repeat 1. -/
theorem c8_insufficient_credits_witness :
    (apiBomber uBroke [] [] "9998887777" 1 true).status = 400 ∧
    (apiBomber uBroke [] [] "9998887777" 1 true).respMessage = "You don't have enough credits" ∧
    (apiBomber uBroke [] [] "9998887777" 1 true).gatewayCalls = 0 ∧
    (apiBomber uBroke [] [] "9998887777" 1 true).user = uBroke ∧
    (apiBomber uBroke [] [] "9998887777" 1 true).messages = [] :=
  c8_insufficient_credits uBroke [] [] "9998887777" 1 true (by decide)

/-- C3: for an active user with a positive balance, the single-send handler
debits one credit and appends exactly one Message row with status "sent"
when the gateway reports success, and on gateway failure returns 500 with
the user row and message table untouched; either way exactly one gateway
call is made. -/
theorem c3_single_send_iff (u : User) (msgs : List Message) (phone msg : String)
    (hA : u.isActive = true) (hR : 0 < u.messagesRemaining) :
    ((apiSendMessage u msgs phone msg true).status = 200 ∧
     (apiSendMessage u msgs phone msg true).user.messagesRemaining =
       u.messagesRemaining - 1 ∧
     (apiSendMessage u msgs phone msg true).user.messagesSent = u.messagesSent + 1 ∧
     (apiSendMessage u msgs phone msg true).messages =
       msgs ++ [{ userId := u.id, phone := phone, message := msg,
                  status := "sent", msgType := "custom" }]) ∧
    ((apiSendMessage u msgs phone msg false).status = 500 ∧
     (apiSendMessage u msgs phone msg false).user = u ∧
     (apiSendMessage u msgs phone msg false).messages = msgs) ∧
    (∀ g : Bool, (apiSendMessage u msgs phone msg g).gatewayCalls = 1) := by
  have hmax : max 0 (u.messagesRemaining - 1) = u.messagesRemaining - 1 :=
    max_eq_right (by omega)
  refine ⟨⟨?_, ?_, ?_, ?_⟩, ⟨?_, ?_, ?_⟩, ?_⟩ <;>
    simp [apiSendMessage, hA, updateUserMessageCount, createMessage,
      InsertMessage.msgType, hmax, not_le.mpr hR]

/-- C3 witness: uAlice sending one message, both gateway outcomes. -/
theorem c3_single_send_iff_witness :
    ((apiSendMessage uAlice [] "9998887777" "hello" true).status = 200 ∧
     (apiSendMessage uAlice [] "9998887777" "hello" true).user.messagesRemaining =
       uAlice.messagesRemaining - 1 ∧
     (apiSendMessage uAlice [] "9998887777" "hello" true).user.messagesSent =
       uAlice.messagesSent + 1 ∧
     (apiSendMessage uAlice [] "9998887777" "hello" true).messages =
       [] ++ [{ userId := uAlice.id, phone := "9998887777", message := "hello",
                status := "sent", msgType := "custom" }]) ∧
    ((apiSendMessage uAlice [] "9998887777" "hello" false).status = 500 ∧
     (apiSendMessage uAlice [] "9998887777" "hello" false).user = uAlice ∧
     (apiSendMessage uAlice [] "9998887777" "hello" false).messages = []) ∧
    (∀ g : Bool, (apiSendMessage uAlice [] "9998887777" "hello" g).gatewayCalls = 1) :=
  c3_single_send_iff uAlice [] "9998887777" "hello" (by decide) (by decide)

/-- C4 counterexample: a protected target phone together with an
insufficient balance (0 credits, repeat 1) is rejected by the self-service
bomber with 400, not 403 — the credit check runs before the protected-number
check; no gateway call is made. -/
theorem c4_counterexample :
    ¬ (apiBomber uBroke [] ["9990002222"] "9990002222" 1 true).status = 403 ∧
    (apiBomber uBroke [] ["9990002222"] "9990002222" 1 true).status = 400 ∧
    (apiBomber uBroke [] ["9990002222"] "9990002222" 1 true).gatewayCalls = 0 := by
  decide

/-- With the target phone in the protected registry, the self-service
bomber handler makes no gateway call on any path. -/
theorem apiBomber_protected_no_call (u : User) (msgs : List Message)
    (prot : List String) (phone : String) (rpt : Int) (g : Bool)
    (hp : prot.contains phone = true) :
    (apiBomber u msgs prot phone rpt g).gatewayCalls = 0 := by
  have hp2 : phone ∈ prot := by simpa using hp
  by_cases h1 : u.messagesRemaining < rpt
  · simp [apiBomber, h1]
  · by_cases h2 : u.isActive = false
    · simp [apiBomber, h1, h2]
    · simp [apiBomber, h1, h2, hp2]

/-- With the target phone in the protected registry, the admin bomber
handler rejects immediately with 403 and zero gateway calls. -/
theorem adminBomber_protected (prot : List String) (phone : String) (n : Nat)
    (m : Option String) (gC : Nat → Bool) (gB : Bool)
    (hp : prot.contains phone = true) :
    adminBomber prot phone n m gC gB =
      ⟨403, "This number is protected from bomber messages", 0⟩ := by
  have hp2 : phone ∈ prot := by simpa using hp
  simp [adminBomber, hp2]

/-- C4 (amended): for a phone in the protected registry, neither bomber
endpoint ever calls the gateway or mutates the ledger or message table; the
admin endpoint always answers 403, and the self-service endpoint rejects
every request — with 403 whenever the credit and active-account checks pass
(otherwise with the error of that earlier check, 400 or 403). -/
theorem c4_protected_never_bombed (u : User) (msgs : List Message)
    (prot : List String) (phone : String) (rpt : Int) (g gB : Bool)
    (n : Nat) (m : Option String) (gC : Nat → Bool)
    (hp : prot.contains phone = true) :
    (apiBomber u msgs prot phone rpt g).gatewayCalls = 0 ∧
    (apiBomber u msgs prot phone rpt g).user = u ∧
    (apiBomber u msgs prot phone rpt g).messages = msgs ∧
    ((apiBomber u msgs prot phone rpt g).status = 400 ∨
     (apiBomber u msgs prot phone rpt g).status = 403) ∧
    (rpt ≤ u.messagesRemaining → u.isActive = true →
      (apiBomber u msgs prot phone rpt g).status = 403 ∧
      (apiBomber u msgs prot phone rpt g).respMessage =
        "This number is protected from bomber messages") ∧
    (adminBomber prot phone n m gC gB).gatewayCalls = 0 ∧
    (adminBomber prot phone n m gC gB).status = 403 := by
  have hp2 : phone ∈ prot := by simpa using hp
  have hb := adminBomber_protected prot phone n m gC gB hp
  rcases lt_or_le u.messagesRemaining rpt with h1 | h1
  · have ha : apiBomber u msgs prot phone rpt g =
        ⟨400, "You don't have enough credits", none, u, msgs, 0⟩ := by
      simp [apiBomber, h1]
    rw [ha, hb]
    exact ⟨rfl, rfl, rfl, Or.inl rfl, fun h2 _ => absurd h2 (by omega), rfl, rfl⟩
  · rcases hA : u.isActive with _ | _
    · have ha : apiBomber u msgs prot phone rpt g =
          ⟨403, "Your account is suspended", none, u, msgs, 0⟩ := by
        simp [apiBomber, not_lt.mpr h1, hA]
      rw [ha, hb]
      exact ⟨rfl, rfl, rfl, Or.inr rfl, fun _ h3 => absurd h3 (by simp [hA]), rfl, rfl⟩
    · have ha : apiBomber u msgs prot phone rpt g =
          ⟨403, "This number is protected from bomber messages", none, u, msgs, 0⟩ := by
        simp [apiBomber, not_lt.mpr h1, hA, hp2]
      rw [ha, hb]
      exact ⟨rfl, rfl, rfl, Or.inr rfl, fun _ _ => ⟨rfl, rfl⟩, rfl, rfl⟩

/-- C4 witness: uAlice (5 credits, active) targeting her own protected
number with repeat 2. -/
theorem c4_protected_never_bombed_witness :
    (apiBomber uAlice [] ["9990001111"] "9990001111" 2 true).gatewayCalls = 0 ∧
    (apiBomber uAlice [] ["9990001111"] "9990001111" 2 true).user = uAlice ∧
    (apiBomber uAlice [] ["9990001111"] "9990001111" 2 true).messages = [] ∧
    ((apiBomber uAlice [] ["9990001111"] "9990001111" 2 true).status = 400 ∨
     (apiBomber uAlice [] ["9990001111"] "9990001111" 2 true).status = 403) ∧
    ((2 : Int) ≤ uAlice.messagesRemaining → uAlice.isActive = true →
      (apiBomber uAlice [] ["9990001111"] "9990001111" 2 true).status = 403 ∧
      (apiBomber uAlice [] ["9990001111"] "9990001111" 2 true).respMessage =
        "This number is protected from bomber messages") ∧
    (adminBomber ["9990001111"] "9990001111" 3 (some "hi") (fun _ => true) true).gatewayCalls = 0 ∧
    (adminBomber ["9990001111"] "9990001111" 3 (some "hi") (fun _ => true) true).status = 403 :=
  c4_protected_never_bombed uAlice [] ["9990001111"] "9990001111" 2 true true 3
    (some "hi") (fun _ => true) (by decide)

/-- The admin bomber loop attempts every iteration: the results array has
exactly `n` entries. -/
theorem adminBomberLoop_length (g : Nat → Bool) (n : Nat) :
    (adminBomberLoop g n).1.length = n := by
  induction n with
  | zero => rfl
  | succ k ih => simp [adminBomberLoop, ih]

/-- The success counter of the admin bomber loop equals the number of successful
calls among the `n` attempts. -/
theorem adminBomberLoop_count (g : Nat → Bool) (n : Nat) :
    (adminBomberLoop g n).2 = (List.range n).countP g := by
  induction n with
  | zero => rfl
  | succ k ih =>
    rw [List.range_succ, List.countP_append]
    simp [adminBomberLoop, ih, List.countP_cons]
    rcases h : g k <;> simp [h]

/-- C5: an admin bomber request with a (truthy) explicit message and repeat
count `n ≥ 1` on an unprotected number makes exactly `n` gateway calls,
never aborts early, and answers 200 with "Sent s of n messages
successfully" where `s` counts the calls that reported success. -/
theorem c5_admin_loop (prot : List String) (phone : String) (n : Nat)
    (msg : Option String) (gC : Nat → Bool) (gB : Bool)
    (_hn : 1 ≤ n) (hp : prot.contains phone = false)
    (hm : messageTruthy msg = true) :
    (adminBomber prot phone n msg gC gB).status = 200 ∧
    (adminBomber prot phone n msg gC gB).gatewayCalls = n ∧
    (adminBomber prot phone n msg gC gB).respMessage =
      "Sent " ++ toString ((List.range n).countP gC) ++ " of " ++ toString n ++
        " messages successfully" := by
  have hp2 : phone ∉ prot := by simpa using hp
  have h : adminBomber prot phone n msg gC gB =
      ⟨200, "Sent " ++ toString ((adminBomberLoop gC n).2) ++ " of " ++ toString n ++
              " messages successfully",
       (adminBomberLoop gC n).1.length⟩ := by
    simp [adminBomber, hp2, hm]
  rw [h]
  exact ⟨rfl, adminBomberLoop_length gC n, by rw [adminBomberLoop_count gC n]⟩

/-- C5 witness: repeat 3 with calls 0 and 2 succeeding reports
"Sent 2 of 3 messages successfully". -/
theorem c5_admin_loop_witness :
    (adminBomber [] "9998887777" 3 (some "hi") (fun i => decide (i ≠ 1)) true).status = 200 ∧
    (adminBomber [] "9998887777" 3 (some "hi") (fun i => decide (i ≠ 1)) true).gatewayCalls = 3 ∧
    (adminBomber [] "9998887777" 3 (some "hi") (fun i => decide (i ≠ 1)) true).respMessage =
      "Sent " ++ toString ((List.range 3).countP (fun i => decide (i ≠ 1))) ++ " of " ++
        toString 3 ++ " messages successfully" :=
  c5_admin_loop [] "9998887777" 3 (some "hi") (fun i => decide (i ≠ 1)) true
    (by decide) (by decide) (by decide)

/-- C7: OTP verification succeeds exactly when a latest OTP row exists for
the phone, it is not yet verified, the current time is not past its
`expiresAt`, and the stored code equals the submitted one; every failure
answers 400 and leaves the rows unchanged, and success marks exactly that
row verified. -/
theorem c7_verify_otp (otps : List Otp) (now : Int) (phone code : String) :
    ((apiVerifyOtp otps now phone code).status = 200 ↔
      ∃ o, getLatestOtp otps phone = some o ∧ o.verified = false ∧
        now ≤ o.expiresAt ∧ o.code = code) ∧
    ((apiVerifyOtp otps now phone code).status ≠ 200 →
      (apiVerifyOtp otps now phone code).status = 400 ∧
      (apiVerifyOtp otps now phone code).otps = otps) ∧
    (∀ o, getLatestOtp otps phone = some o →
      (apiVerifyOtp otps now phone code).status = 200 →
      (apiVerifyOtp otps now phone code).otps = verifyOtpById otps o.id) := by
  rcases hrec : getLatestOtp otps phone with _ | o
  · have he : apiVerifyOtp otps now phone code = ⟨400, "No verification code found", otps⟩ := by
      unfold apiVerifyOtp
      rw [hrec]
    rw [he]
    refine ⟨⟨fun h => absurd h (by simp), ?_⟩, fun _ => ⟨rfl, rfl⟩,
      fun b hb _ => by simp [hrec] at hb⟩
    rintro ⟨b, hb, -⟩
    simp [hrec] at hb
  · rcases hv : o.verified with _ | _
    · by_cases hexp2 : o.expiresAt < now
      · have he : apiVerifyOtp otps now phone code =
            ⟨400, "Verification code expired", otps⟩ := by
          unfold apiVerifyOtp
          rw [hrec]
          simp [hv, hexp2]
        rw [he]
        refine ⟨⟨fun h => absurd h (by simp), ?_⟩, fun _ => ⟨rfl, rfl⟩,
          fun b hb h200 => absurd h200 (by simp)⟩
        rintro ⟨b, hb, -, hle, -⟩
        injection hb with hob
        subst hob
        omega
      · by_cases hcode2 : o.code = code
        · have he : apiVerifyOtp otps now phone code =
              ⟨200, "Verification successful", verifyOtpById otps o.id⟩ := by
            unfold apiVerifyOtp
            rw [hrec]
            simp [hv, hexp2, hcode2]
          rw [he]
          refine ⟨⟨fun _ => ⟨o, rfl, hv, not_lt.mp hexp2, hcode2⟩, fun _ => rfl⟩,
            fun h => absurd rfl h, ?_⟩
          intro b hb _
          injection hb with hob
          subst hob
          rfl
        · have he : apiVerifyOtp otps now phone code =
              ⟨400, "Invalid verification code", otps⟩ := by
            unfold apiVerifyOtp
            rw [hrec]
            simp [hv, hexp2, hcode2]
          rw [he]
          refine ⟨⟨fun h => absurd h (by simp), ?_⟩, fun _ => ⟨rfl, rfl⟩,
            fun b hb h200 => absurd h200 (by simp)⟩
          rintro ⟨b, hb, -, -, hc⟩
          injection hb with hob
          subst hob
          exact absurd hc hcode2
    · have he : apiVerifyOtp otps now phone code = ⟨400, "Code already verified", otps⟩ := by
        unfold apiVerifyOtp
        rw [hrec]
        simp [hv]
      rw [he]
      refine ⟨⟨fun h => absurd h (by simp), ?_⟩, fun _ => ⟨rfl, rfl⟩,
        fun b hb h200 => absurd h200 (by simp)⟩
      rintro ⟨b, hb, hbv, -⟩
      injection hb with hob
      subst hob
      rw [hv] at hbv
      simp at hbv

/-- Sample OTP row: code 123456, expires at time 100, unverified. -/
def otpFresh : Otp := ⟨7, "9990003333", "123456", 100, false, 10⟩

/-- C7 witness: at time 50 the correct code verifies `otpFresh`. -/
theorem c7_verify_otp_witness :
    ((apiVerifyOtp [otpFresh] 50 "9990003333" "123456").status = 200 ↔
      ∃ o, getLatestOtp [otpFresh] "9990003333" = some o ∧ o.verified = false ∧
        (50 : Int) ≤ o.expiresAt ∧ o.code = "123456") ∧
    ((apiVerifyOtp [otpFresh] 50 "9990003333" "123456").status ≠ 200 →
      (apiVerifyOtp [otpFresh] 50 "9990003333" "123456").status = 400 ∧
      (apiVerifyOtp [otpFresh] 50 "9990003333" "123456").otps = [otpFresh]) ∧
    (∀ o, getLatestOtp [otpFresh] "9990003333" = some o →
      (apiVerifyOtp [otpFresh] 50 "9990003333" "123456").status = 200 →
      (apiVerifyOtp [otpFresh] 50 "9990003333" "123456").otps =
        verifyOtpById [otpFresh] o.id) :=
  c7_verify_otp [otpFresh] 50 "9990003333" "123456"

/-- C9: completing registration ignores the clock entirely — the outcome is
the same at every `now` — and creates the account (201, row appended via
`createUser`) exactly when the latest OTP row for the phone is verified;
otherwise it answers 400 "Phone not verified" with no user created. -/
theorem c9_complete_registration (otps : List Otp) (us : List User)
    (now now2 : Int) (newId : Nat) (username phone : String) (adm : Bool) :
    completeRegistration otps us now newId username phone adm =
      completeRegistration otps us now2 newId username phone adm ∧
    ((completeRegistration otps us now newId username phone adm).status = 201 ↔
      ∃ o, getLatestOtp otps phone = some o ∧ o.verified = true) ∧
    ((completeRegistration otps us now newId username phone adm).status = 201 →
      (completeRegistration otps us now newId username phone adm).users =
        createUser us newId username phone adm) ∧
    ((completeRegistration otps us now newId username phone adm).status ≠ 201 →
      (completeRegistration otps us now newId username phone adm).status = 400 ∧
      (completeRegistration otps us now newId username phone adm).respMessage =
        "Phone not verified" ∧
      (completeRegistration otps us now newId username phone adm).users = us) := by
  rcases hrec : getLatestOtp otps phone with _ | o
  · have he : ∀ t : Int, completeRegistration otps us t newId username phone adm =
        ⟨400, "Phone not verified", us⟩ := by
      intro t
      unfold completeRegistration
      rw [hrec]
    rw [he now, he now2]
    refine ⟨rfl, ⟨fun h => absurd h (by simp), ?_⟩, fun h => absurd h (by simp),
      fun _ => ⟨rfl, rfl, rfl⟩⟩
    rintro ⟨b, hb, -⟩
    simp at hb
  · rcases hv : o.verified with _ | _
    · have he : ∀ t : Int, completeRegistration otps us t newId username phone adm =
          ⟨400, "Phone not verified", us⟩ := by
        intro t
        unfold completeRegistration
        rw [hrec]
        simp [hv]
      rw [he now, he now2]
      refine ⟨rfl, ⟨fun h => absurd h (by simp), ?_⟩, fun h => absurd h (by simp),
        fun _ => ⟨rfl, rfl, rfl⟩⟩
      rintro ⟨b, hb, hbv⟩
      injection hb with hob
      subst hob
      rw [hv] at hbv
      simp at hbv
    · have he : ∀ t : Int, completeRegistration otps us t newId username phone adm =
          ⟨201, "", createUser us newId username phone adm⟩ := by
        intro t
        unfold completeRegistration
        rw [hrec]
        simp [hv]
      rw [he now, he now2]
      exact ⟨rfl, ⟨fun _ => ⟨o, rfl, hv⟩, fun _ => rfl⟩, fun _ => rfl,
        fun h => absurd rfl h⟩

/-- Verified OTP row whose expiry (time 100) is long past. -/
def otpStale : Otp := ⟨8, "9990004444", "654321", 100, true, 10⟩

/-- C9 witness: at time 5000, far past the expiry of the row, registration for
the verified phone still proceeds. -/
theorem c9_complete_registration_witness :
    completeRegistration [otpStale] [] 5000 3 "carol" "9990004444" false =
      completeRegistration [otpStale] [] 20 3 "carol" "9990004444" false ∧
    ((completeRegistration [otpStale] [] 5000 3 "carol" "9990004444" false).status = 201 ↔
      ∃ o, getLatestOtp [otpStale] "9990004444" = some o ∧ o.verified = true) ∧
    ((completeRegistration [otpStale] [] 5000 3 "carol" "9990004444" false).status = 201 →
      (completeRegistration [otpStale] [] 5000 3 "carol" "9990004444" false).users =
        createUser [] 3 "carol" "9990004444" false) ∧
    ((completeRegistration [otpStale] [] 5000 3 "carol" "9990004444" false).status ≠ 201 →
      (completeRegistration [otpStale] [] 5000 3 "carol" "9990004444" false).status = 400 ∧
      (completeRegistration [otpStale] [] 5000 3 "carol" "9990004444" false).respMessage =
        "Phone not verified" ∧
      (completeRegistration [otpStale] [] 5000 3 "carol" "9990004444" false).users = []) :=
  c9_complete_registration [otpStale] [] 5000 20 3 "carol" "9990004444" false

/-- C10: the admin custom-message handler consults no protected-number
registry — for any registry containing the target phone it still makes
exactly one gateway call, succeeding (200) exactly when the gateway does —
while under the same registry both bomber endpoints make zero calls. -/
theorem c10_custom_message_unprotected (prot : List String) (phone msg : String)
    (g gB : Bool) (u : User) (msgs : List Message) (rpt : Int) (n : Nat)
    (m : Option String) (gC : Nat → Bool)
    (hp : prot.contains phone = true) :
    (adminCustomMessage phone msg g).gatewayCalls = 1 ∧
    ((adminCustomMessage phone msg g).status = 200 ↔ g = true) ∧
    (apiBomber u msgs prot phone rpt g).gatewayCalls = 0 ∧
    (adminBomber prot phone n m gC gB).gatewayCalls = 0 := by
  refine ⟨?_, ?_, apiBomber_protected_no_call u msgs prot phone rpt g hp, ?_⟩
  · cases g <;> rfl
  · cases g <;> simp [adminCustomMessage]
  · rw [adminBomber_protected prot phone n m gC gB hp]

/-- C10 witness: the protected number of uAlice still receives one admin custom
message call, while both bomber endpoints make none. -/
theorem c10_custom_message_unprotected_witness :
    (adminCustomMessage "9990001111" "hello" true).gatewayCalls = 1 ∧
    ((adminCustomMessage "9990001111" "hello" true).status = 200 ↔ true = true) ∧
    (apiBomber uAlice [] ["9990001111"] "9990001111" 1 true).gatewayCalls = 0 ∧
    (adminBomber ["9990001111"] "9990001111" 2 none (fun _ => true) true).gatewayCalls = 0 :=
  c10_custom_message_unprotected ["9990001111"] "9990001111" "hello" true true
    uAlice [] 1 2 none (fun _ => true) (by decide)

end Bomber
